import Mathlib

/-!
Shallow embedding of the city17 playlist relay (src/main.rs).

The program is a two-stage pipeline: `get_access_token` POSTs a GraphQL
request for a playback token, then `get_m3u8` GETs the playlist with a
fixed twelve-parameter query.  Failures at either stage are wrapped in an
`ErrorResponder` carrying the error and a stage tag, and serialized as a
JSON object by `Error::to_json`.

Modelling choices:
- Network sends are modelled by passing the transport result (or an oracle
  producing it) as an argument; everything after the send is translated
  from the source verbatim.
- Randomness (the PCG generator reseeded from entropy on each call) is
  modelled by an abstract stream of draws passed as an argument:
  `rand::distributions::Alphanumeric` rejection-samples an index below 62
  into its 62-character charset, modelled as `index % 62` into the same
  charset (same support); `gen_range(0..=9_999_999)` produces a uniform
  value of the inclusive range, modelled as `draw % 10000000` (same
  support).
- `serde_json` decoding of the upstream token response is modelled by an
  explicit recursive decoder over a JSON value type, following the
  `#[derive(Deserialize)]` structs in the source (mandatory fields, the
  `streamPlaybackAccessToken` / `videoPlaybackAccessToken` alias pair, no
  `Option` so `null` or absence is a decode failure).
- In the source, the decode step of `get_access_token` is
  `reqwest::Response::json`, whose error type is `reqwest::Error` (kind
  Decode, no status, not a timeout); `e.into()` therefore lands in the
  `Error::Http` variant, never `Error::Serde`.  `ReqwestError` carries the
  observable flags used by the program (`is_timeout`, `status`) plus the
  decode kind.
- `ClientBuilder::resolve` (reqwest) installs per-hostname address
  overrides consulted before system DNS; `resolve` below models that
  lookup-with-fallback semantics over the override table built by
  `insert_resolve_overrides`.
-/

namespace City17

/-- JSON values, for modelling serde_json decoding of upstream responses. -/
inductive Json where
  | null : Json
  | bool : Bool → Json
  | str : String → Json
  | num : Int → Json
  | arr : List Json → Json
  | obj : List (String × Json) → Json

/-- Field lookup in a JSON object; `none` on any non-object. -/
def Json.lookup : Json → String → Option Json
  | .obj fields, k => fields.lookup k
  | _, _ => none

/-- serde: a missing mandatory field is a decode error. -/
def Json.getField (j : Json) (k : String) : Except String Json :=
  match j.lookup k with
  | some v => Except.ok v
  | none => Except.error ("missing field " ++ k)

/-- serde: a `String` field accepts only a JSON string (in particular not `null`). -/
def Json.asStr : Json → Except String String
  | .str s => Except.ok s
  | _ => Except.error "expected a string"

/-- serde: an `i64` field accepts only a JSON number. -/
def Json.asInt : Json → Except String Int
  | .num n => Except.ok n
  | _ => Except.error "expected an integer"

/-- Rust `str::to_lowercase`, modelled character by character (the inputs of
this program are ASCII hostnames, channel names and generated identifiers,
on which per-character lowering and Unicode full lowering agree). -/
def to_lowercase (s : String) : String :=
  String.mk (s.data.map Char.toLower)

/-- `enum Variables { Channel(String), VOD(String) }` (src/main.rs:354-359). -/
inductive Variables where
  | Channel : String → Variables
  | VOD : String → Variables

/-- `Variables::data` (src/main.rs:370-374). -/
def Variables.data : Variables → String
  | .Channel d => d
  | .VOD d => d

/-- `Variables::get_url` (src/main.rs:362-369): playlist URL from the target. -/
def Variables.get_url : Variables → String
  | .Channel channel => "https://usher.ttvnw.net/" ++ ("api/channel/hls/" ++ channel ++ ".m3u8")
  | .VOD id => "https://usher.ttvnw.net/" ++ ("vod/" ++ id ++ ".m3u8")

/-- `struct PlaybackAccessToken` (src/main.rs:315-321). -/
structure PlaybackAccessToken where
  value : String
  signature : String
  typename : String

/-- `struct Data` (src/main.rs:304-313): the one mandatory field, deserialized
from either `streamPlaybackAccessToken` or the alias `videoPlaybackAccessToken`. -/
structure Data where
  playback_access_token : PlaybackAccessToken

/-- `struct Extensions` (src/main.rs:344-352). -/
structure Extensions where
  duration_milliseconds : Int
  operation_name : String
  request_id : String

/-- `struct AccessTokenResponse` (src/main.rs:298-302). -/
structure AccessTokenResponse where
  data : Data
  extensions : Extensions

/-- `PlaybackAccessToken::gen_query` (src/main.rs:324-341): the fixed
twelve-parameter query array, in source order. -/
def PlaybackAccessToken.gen_query (t : PlaybackAccessToken) (p : String)
    (play_session_id : String) : List (String × String) :=
  [("player_backend", "mediaplayer"),
   ("playlist_include_framerate", "true"),
   ("reassignments_supported", "true"),
   ("supported_codecs", "vp09,avc1"),
   ("play_session_id", play_session_id),
   ("cdm", "wv"),
   ("player_version", "1.4.0"),
   ("fast_bread", "true"),
   ("token", t.value),
   ("sig", t.signature),
   ("allow_source", "true"),
   ("p", p)]

/-- The charset of `rand::distributions::Alphanumeric` (A-Z, a-z, 0-9). -/
def alphanumeric_charset : List Char :=
  "ABCDEFGHIJKLMNOPQRSTUVWXYZabcdefghijklmnopqrstuvwxyz0123456789".toList

/-- One `Alphanumeric` sample: an index below 62 into the charset.  The
rejection sampling of the library is modelled by reducing the raw draw
modulo 62; the support (the 62 alphanumeric characters) is identical. -/
def sample_alphanumeric (r : Nat) : Char :=
  alphanumeric_charset.getD (r % 62) 'A'

/-- `generate_id` (src/main.rs:293-296): take 32 samples of `Alphanumeric`
from a freshly seeded generator (modelled as the abstract draw stream
`samples`) and collect them into a string. -/
def generate_id (samples : Nat → Nat) : String :=
  String.mk ((List.range 32).map fun i => sample_alphanumeric (samples i))

/-- `pcg.gen_range(0..=9_999_999)` in `get_m3u8` (src/main.rs:144): a uniform
draw from the inclusive range, modelled as the raw draw modulo 10000000. -/
def gen_range_p (r : Nat) : Nat := r % 10000000

/-- The query built by `get_m3u8` (src/main.rs:142-153):
`token.gen_query(&p, &generate_id().to_lowercase())` where `p` is the decimal
form of the range draw.  `rawId` stands for the freshly generated
`generate_id()` output, lower-cased at the call site. -/
def get_m3u8_query (token : PlaybackAccessToken) (r : Nat) (rawId : String) :
    List (String × String) :=
  token.gen_query (toString (gen_range_p r)) (to_lowercase rawId)

/-- The observable part of a `reqwest::Error`: the flags the program reads
(`is_timeout`, `status`), the decode kind (set by `Response::json` when the
body fails to deserialize), and the debug message. -/
structure ReqwestError where
  timeout : Bool
  decode : Bool
  status : Option Nat
  msg : String

/-- The `reqwest::Error` produced by `Response::json` when the body does not
deserialize: kind Decode, not a timeout, no status attached. -/
def reqwest_decode_error (m : String) : ReqwestError :=
  { timeout := false, decode := true, status := none, msg := m }

/-- `enum Error { Http(reqwest::Error), Serde(serde_json::Error) }`
(src/main.rs:266-272). -/
inductive Error where
  | Http : ReqwestError → Error
  | Serde : String → Error

/-- Whether an `Error` is the `Serde` variant. -/
def Error.is_serde : Error → Bool
  | .Serde _ => true
  | .Http _ => false

/-- Whether an `Error` is the `Http` variant. -/
def Error.is_http : Error → Bool
  | .Http _ => true
  | .Serde _ => false

/-- `Display for Error` via thiserror `#[error(...)]` (src/main.rs:266-272). -/
def Error.display : Error → String
  | .Http _ => "http error"
  | .Serde _ => "serde error"

/-- `Debug for Error` (derived): the variant name around the inner debug text. -/
def Error.debug : Error → String
  | .Http e => "Http(" ++ e.msg ++ ")"
  | .Serde m => "Serde(" ++ m ++ ")"

/-- The JSON object built by `Error::to_json` (src/main.rs:274-283). -/
structure ErrorJson where
  result : String
  stage : String
  debug : String
  display : String

/-- `Error::to_json` (src/main.rs:274-283). -/
def Error.to_json (e : Error) (stage : String) : ErrorJson :=
  { result := "error", stage := stage, debug := e.debug, display := e.display }

/-- `struct ErrorResponder(Error, &'static str)` (src/main.rs:227). -/
structure ErrorResponder where
  error : Error
  stage : String

/-- The JSON body emitted by `ErrorResponder::respond_to` (src/main.rs:258):
`self.0.to_json(self.1)`. -/
def ErrorResponder.respond_body (r : ErrorResponder) : ErrorJson :=
  r.error.to_json r.stage

/-- The status code chosen by `ErrorResponder::respond_to` (src/main.rs:248-257). -/
def ErrorResponder.respond_status (r : ErrorResponder) : Nat :=
  match r.error with
  | Error.Http e =>
    if e.timeout then 504
    else match e.status with
      | some s => s
      | none => 510
  | Error.Serde _ => 501

/-- `struct M3U8Responder(String)` (src/main.rs:167). -/
structure M3U8Responder where
  body : String

/-- `ResultExt::into_responder` (src/main.rs:160-164). -/
def into_responder {α : Type} (r : Except Error α) (stage : String) :
    Except ErrorResponder α :=
  match r with
  | .ok v => .ok v
  | .error e => .error ⟨e, stage⟩

/-- `process` (src/main.rs:136-140).  The two network stages are passed as
oracles: `get_access_token_impl` stands for `get_access_token(&var)` and
`get_m3u8_impl` for `get_m3u8(url, token)`; the composition, the stage tags
"GQL" and "M3U", the extraction of `.data.playback_access_token`, and the
URL argument `var.get_url()` are translated from the source. -/
def process (get_access_token_impl : Variables → Except Error AccessTokenResponse)
    (get_m3u8_impl : String → PlaybackAccessToken → Except Error String)
    (var : Variables) : Except ErrorResponder M3U8Responder :=
  match into_responder (get_access_token_impl var) "GQL" with
  | .error e => .error e
  | .ok resp =>
    match into_responder (get_m3u8_impl var.get_url resp.data.playback_access_token) "M3U" with
    | .error e => .error e
    | .ok m3u8 => .ok ⟨m3u8⟩

/-- `process_live` (src/main.rs:126-128): the target it builds,
`Variables::Channel(channel.to_lowercase())`. -/
def process_live_target (channel : String) : Variables :=
  Variables.Channel (to_lowercase channel)

/-- `process_vod` (src/main.rs:132-134): the target it builds,
`Variables::VOD(id.to_string())`. -/
def process_vod_target (id : Nat) : Variables :=
  Variables.VOD (toString id)

/-- The persisted query reference in the token request (src/main.rs:193-198). -/
structure PersistedQuery where
  version : Nat
  sha256Hash : String

/-- The token request body built by `get_access_token` (src/main.rs:191-206). -/
structure TokenRequestBody where
  operationName : String
  persistedQuery : PersistedQuery
  isLive : Bool
  login : String
  isVod : Bool
  vodID : String
  playerType : String

/-- The body construction in `get_access_token` (src/main.rs:191-206),
field by field from the `json!` literal. -/
def build_token_request (var : Variables) : TokenRequestBody :=
  { operationName := "PlaybackAccessToken",
    persistedQuery :=
      { version := 1,
        sha256Hash := "0828119ded1c13477966434e15800ff57ddacf13ba1911c129dc2200705b0712" },
    isLive := match var with | .Channel _ => true | .VOD _ => false,
    login := match var with | .Channel _ => var.data | .VOD _ => "",
    isVod := match var with | .VOD _ => true | .Channel _ => false,
    vodID := match var with | .VOD _ => var.data | .Channel _ => "",
    playerType := "site" }

/-- serde decode of `PlaybackAccessToken` (src/main.rs:315-321): three
mandatory string fields. -/
def PlaybackAccessToken.deserialize (j : Json) : Except String PlaybackAccessToken :=
  match j.getField "value" with
  | .error m => .error m
  | .ok vj =>
    match vj.asStr with
    | .error m => .error m
    | .ok v =>
      match j.getField "signature" with
      | .error m => .error m
      | .ok sj =>
        match sj.asStr with
        | .error m => .error m
        | .ok s =>
          match j.getField "__typename" with
          | .error m => .error m
          | .ok tj =>
            match tj.asStr with
            | .error m => .error m
            | .ok t => .ok ⟨v, s, t⟩

/-- serde decode of `Data` (src/main.rs:304-313): the token field under its
primary name `streamPlaybackAccessToken` or its alias
`videoPlaybackAccessToken`; mandatory and not `Option`, so absence or `null`
fails. -/
def Data.deserialize (j : Json) : Except String Data :=
  match j.lookup "streamPlaybackAccessToken" with
  | some v => (PlaybackAccessToken.deserialize v).map fun t => ⟨t⟩
  | none =>
    match j.lookup "videoPlaybackAccessToken" with
    | some v => (PlaybackAccessToken.deserialize v).map fun t => ⟨t⟩
    | none => Except.error "missing field streamPlaybackAccessToken"

/-- serde decode of `Extensions` (src/main.rs:344-352). -/
def Extensions.deserialize (j : Json) : Except String Extensions :=
  match j.getField "durationMilliseconds" with
  | .error m => .error m
  | .ok dj =>
    match dj.asInt with
    | .error m => .error m
    | .ok d =>
      match j.getField "operationName" with
      | .error m => .error m
      | .ok oj =>
        match oj.asStr with
        | .error m => .error m
        | .ok o =>
          match j.getField "requestID" with
          | .error m => .error m
          | .ok rj =>
            match rj.asStr with
            | .error m => .error m
            | .ok r => .ok ⟨d, o, r⟩

/-- serde decode of `AccessTokenResponse` (src/main.rs:298-302): mandatory
`data` and `extensions` objects. -/
def AccessTokenResponse.deserialize (j : Json) : Except String AccessTokenResponse :=
  match j.getField "data" with
  | .error m => .error m
  | .ok dj =>
    match Data.deserialize dj with
    | .error m => .error m
    | .ok d =>
      match j.getField "extensions" with
      | .error m => .error m
      | .ok ej =>
        match Extensions.deserialize ej with
        | .error m => .error m
        | .ok e => .ok ⟨d, e⟩

/-- The tail of `get_access_token` (src/main.rs:212-223): a transport failure
of `send` propagates as `Error::Http` via `?`; on a transport success the
body is decoded by `Response::json`, whose failure is a `reqwest::Error` of
kind Decode, turned into `Error::Http` by `e.into()` (the `From` impl picked
for `reqwest::Error`). -/
def get_access_token (send : Except ReqwestError Json) :
    Except Error AccessTokenResponse :=
  match send with
  | .error e => Except.error (Error.Http e)
  | .ok body =>
    match AccessTokenResponse.deserialize body with
    | .ok r => Except.ok r
    | .error m => Except.error (Error.Http (reqwest_decode_error m))

/-- A socket address as used by `socket_addr_v4` (src/main.rs:54-56). -/
structure SockAddrV4 where
  ip : List Nat
  port : Nat

/-- `socket_addr_v4` (src/main.rs:54-56). -/
def socket_addr_v4 (ip : List Nat) (port : Nat) : SockAddrV4 := ⟨ip, port⟩

/-- The override table installed by `insert_resolve_overrides`
(src/main.rs:43-50): the two `.resolve(...)` calls in source order. -/
def resolve_overrides : List (String × SockAddrV4) :=
  [("twitch.map.fastly.net", socket_addr_v4 [151, 101, 110, 167] 443),
   ("usher.ttvnw.net", socket_addr_v4 [23, 160, 0, 254] 443)]

/-- The lookup semantics of the reqwest override resolver: a hostname in the
override table resolves to exactly its configured addresses without
consulting system resolution; any other hostname is delegated to the system
resolver `system`, whose result (success or failure) is returned unchanged. -/
def resolve (system : String → Except String (List SockAddrV4)) (host : String) :
    Except String (List SockAddrV4) :=
  match resolve_overrides.lookup host with
  | some addr => Except.ok [addr]
  | none => system host

/-- A hypothesis shape for C8: an optional JSON field that is absent or null. -/
def isNoneOrNull (o : Option Json) : Prop :=
  o = none ∨ o = some Json.null

/-- A concrete upstream token response whose nested playback-token field is
`null` (the deleted-VOD shape mentioned in src/main.rs:308). -/
def nullTokenBody : Json :=
  Json.obj [("data", Json.obj [("streamPlaybackAccessToken", Json.null)])]

/-- A stub system resolver that fails on every hostname. -/
def stub_system (host : String) : Except String (List SockAddrV4) :=
  Except.error ("resolution failed for " ++ host)

/-- A concrete successful token response, for instantiating theorems. -/
def tokResp : AccessTokenResponse :=
  { data :=
      { playback_access_token :=
          { value := "T", signature := "S", typename := "PlaybackAccessToken" } },
    extensions :=
      { duration_milliseconds := 0, operation_name := "PlaybackAccessToken",
        request_id := "r" } }

/-- Every `Alphanumeric` sample is an alphanumeric character. -/
theorem sample_alphanumeric_isAlphanum (r : Nat) : (sample_alphanumeric r).isAlphanum := by
  have h : r % 62 < 62 := Nat.mod_lt _ (by decide)
  have hall : ∀ k, k < 62 → (alphanumeric_charset.getD k 'A').isAlphanum := by decide
  exact hall _ h

/-- C5: every string returned by the identifier generator has length exactly
32 and every one of its characters is alphanumeric. -/
theorem C5_generate_id_alphanumeric (samples : Nat → Nat) :
    (generate_id samples).length = 32 ∧
    ∀ c ∈ (generate_id samples).data, c.isAlphanum := by
  constructor
  · simp [generate_id, String.length]
  · intro c hc
    simp only [generate_id, String.data, List.mem_map, List.mem_range] at hc
    obtain ⟨i, _, hi⟩ := hc
    exact hi ▸ sample_alphanumeric_isAlphanum (samples i)

/-- C5 witness: the generator property instantiated at a concrete draw
stream and a concrete character of the output. -/
theorem C5_generate_id_alphanumeric_witness :
    (generate_id fun _ => 0).length = 32 ∧
    'A' ∈ (generate_id fun _ => 0).data ∧
    Char.isAlphanum 'A' :=
  ⟨(C5_generate_id_alphanumeric fun _ => 0).1, by decide,
   (C5_generate_id_alphanumeric fun _ => 0).2 'A' (by decide)⟩

/-- C7: the playlist URL is computed deterministically from the target:
base followed by `api/channel/hls/<login>.m3u8` for a live channel and by
`vod/<id>.m3u8` for a recording. -/
theorem C7_get_url (login id : String) :
    (Variables.Channel login).get_url =
      "https://usher.ttvnw.net/api/channel/hls/" ++ login ++ ".m3u8" ∧
    (Variables.VOD id).get_url =
      "https://usher.ttvnw.net/vod/" ++ id ++ ".m3u8" := by
  constructor <;> simp [Variables.get_url, ← String.append_assoc]

/-- C10: the HTTP status code chosen by `ErrorResponder::respond_to` is
determined exactly by the error variant: 504 for a timeout transport error,
501 for a serde decode error, otherwise the upstream status when available
and 510 when not. -/
theorem C10_respond_status (e : ReqwestError) (m stage : String) :
    (e.timeout = true → ErrorResponder.respond_status ⟨Error.Http e, stage⟩ = 504) ∧
    ErrorResponder.respond_status ⟨Error.Serde m, stage⟩ = 501 ∧
    (∀ c, e.timeout = false → e.status = some c →
      ErrorResponder.respond_status ⟨Error.Http e, stage⟩ = c) ∧
    (e.timeout = false → e.status = none →
      ErrorResponder.respond_status ⟨Error.Http e, stage⟩ = 510) := by
  refine ⟨fun h => ?_, rfl, fun c h1 h2 => ?_, fun h1 h2 => ?_⟩
  · simp [ErrorResponder.respond_status, h]
  · simp [ErrorResponder.respond_status, h1, h2]
  · simp [ErrorResponder.respond_status, h1, h2]

/-- C10 witness: the four branches of the status mapping at concrete errors. -/
theorem C10_respond_status_witness :
    ErrorResponder.respond_status
      ⟨Error.Http { timeout := true, decode := false, status := none, msg := "t" }, "GQL"⟩ = 504 ∧
    ErrorResponder.respond_status ⟨Error.Serde "s", "GQL"⟩ = 501 ∧
    ErrorResponder.respond_status
      ⟨Error.Http { timeout := false, decode := false, status := some 403, msg := "f" }, "M3U"⟩ = 403 ∧
    ErrorResponder.respond_status
      ⟨Error.Http { timeout := false, decode := false, status := none, msg := "n" }, "M3U"⟩ = 510 :=
  ⟨(C10_respond_status { timeout := true, decode := false, status := none, msg := "t" } "s" "GQL").1 rfl,
   (C10_respond_status { timeout := true, decode := false, status := none, msg := "t" } "s" "GQL").2.1,
   (C10_respond_status { timeout := false, decode := false, status := some 403, msg := "f" } "s" "M3U").2.2.1
     403 rfl rfl,
   (C10_respond_status { timeout := false, decode := false, status := none, msg := "n" } "s" "M3U").2.2.2
     rfl rfl⟩

/-- C4: the token-request body sets `isLive`/`login` for a channel and
`isVod`/`vodID` for a recording, with the other pair unpopulated, together
with the constant operation name, persisted query hash and player type. -/
theorem C4_token_request (name id : String) :
    (let b := build_token_request (Variables.Channel name)
     b.isLive = true ∧ b.login = name ∧ b.isVod = false ∧ b.vodID = "" ∧
     b.operationName = "PlaybackAccessToken" ∧ b.playerType = "site" ∧
     b.persistedQuery.version = 1 ∧
     b.persistedQuery.sha256Hash =
       "0828119ded1c13477966434e15800ff57ddacf13ba1911c129dc2200705b0712") ∧
    (let b := build_token_request (Variables.VOD id)
     b.isVod = true ∧ b.vodID = id ∧ b.isLive = false ∧ b.login = "" ∧
     b.operationName = "PlaybackAccessToken" ∧ b.playerType = "site" ∧
     b.persistedQuery.version = 1 ∧
     b.persistedQuery.sha256Hash =
       "0828119ded1c13477966434e15800ff57ddacf13ba1911c129dc2200705b0712") := by
  constructor <;> simp [build_token_request, Variables.data]

/-- C9: the override table holds exactly the two hard-coded host/address
entries; resolving those hosts yields exactly the configured address without
consulting the system resolver, and any other host is delegated to the
system resolver with its result returned unchanged. -/
theorem C9_resolve_overrides (system : String → Except String (List SockAddrV4))
    (host : String) :
    resolve_overrides =
      [("twitch.map.fastly.net", socket_addr_v4 [151, 101, 110, 167] 443),
       ("usher.ttvnw.net", socket_addr_v4 [23, 160, 0, 254] 443)] ∧
    resolve system "twitch.map.fastly.net" =
      Except.ok [socket_addr_v4 [151, 101, 110, 167] 443] ∧
    resolve system "usher.ttvnw.net" =
      Except.ok [socket_addr_v4 [23, 160, 0, 254] 443] ∧
    (host ≠ "twitch.map.fastly.net" → host ≠ "usher.ttvnw.net" →
      resolve system host = system host) := by
  refine ⟨rfl, rfl, rfl, fun h1 h2 => ?_⟩
  have e1 : (host == "twitch.map.fastly.net") = false := beq_eq_false_iff_ne.mpr h1
  have e2 : (host == "usher.ttvnw.net") = false := beq_eq_false_iff_ne.mpr h2
  simp [resolve, resolve_overrides, List.lookup, e1, e2]

/-- C1 counterexample: when the token stage fails, the stage tag handed back
is the string "GQL", not "token" as the claim states. -/
theorem C1_counterexample :
    (match process (fun _ => Except.error (Error.Serde "boom")) (fun _ _ => Except.ok "x")
        (Variables.Channel "foo") with
     | Except.error r => r.respond_body.stage
     | Except.ok _ => "") = "GQL" ∧
    ("GQL" : String) ≠ "token" :=
  ⟨rfl, by decide⟩

/-- C1 (amended): every failing pipeline run hands back a structured object
with result "error", a stage tag that is "GQL" exactly when the failure
occurred in the token stage and "M3U" when it occurred in the playlist
stage, the debug string of the error, and its display string. -/
theorem C1_error_body (tok : Variables → Except Error AccessTokenResponse)
    (m3u : String → PlaybackAccessToken → Except Error String) (var : Variables)
    (r : ErrorResponder) (h : process tok m3u var = Except.error r) :
    r.respond_body.result = "error" ∧
    (r.respond_body.stage = "GQL" ∨ r.respond_body.stage = "M3U") ∧
    (r.respond_body.stage = "GQL" ↔ ∃ e, tok var = Except.error e) ∧
    r.respond_body.debug = r.error.debug ∧
    r.respond_body.display = r.error.display := by
  cases htok : tok var with
  | error e =>
    have hp : process tok m3u var = Except.error ⟨e, "GQL"⟩ := by
      simp [process, into_responder, htok]
    rw [hp] at h
    injection h with h2
    subst h2
    exact ⟨rfl, Or.inl rfl, ⟨fun _ => ⟨e, rfl⟩, fun _ => rfl⟩, rfl, rfl⟩
  | ok resp =>
    cases hm : m3u var.get_url resp.data.playback_access_token with
    | error e =>
      have hp : process tok m3u var = Except.error ⟨e, "M3U"⟩ := by
        simp [process, into_responder, htok, hm]
      rw [hp] at h
      injection h with h2
      subst h2
      refine ⟨rfl, Or.inr rfl, ?_, rfl, rfl⟩
      constructor
      · intro hst
        simp [ErrorResponder.respond_body, Error.to_json] at hst
      · rintro ⟨e2, he2⟩
        exact Except.noConfusion he2
    | ok s =>
      have hp : process tok m3u var = Except.ok ⟨s⟩ := by
        simp [process, into_responder, htok, hm]
      rw [hp] at h
      exact Except.noConfusion h

/-- C1 witness: the amended statement instantiated at a concrete failing
token stage. -/
theorem C1_error_body_witness :
    ((⟨Error.Serde "boom", "GQL"⟩ : ErrorResponder).respond_body.result = "error") ∧
    ((⟨Error.Serde "boom", "GQL"⟩ : ErrorResponder).respond_body.stage = "GQL" ∨
     (⟨Error.Serde "boom", "GQL"⟩ : ErrorResponder).respond_body.stage = "M3U") :=
  ⟨(C1_error_body (fun _ => Except.error (Error.Serde "boom")) (fun _ _ => Except.ok "x")
      (Variables.Channel "c") ⟨Error.Serde "boom", "GQL"⟩ rfl).1,
   (C1_error_body (fun _ => Except.error (Error.Serde "boom")) (fun _ _ => Except.ok "x")
      (Variables.Channel "c") ⟨Error.Serde "boom", "GQL"⟩ rfl).2.1⟩

/-- C2: a failing token stage is returned immediately with the token stage
tag, and the pipeline result does not depend on the playlist stage at all in
that case; the playlist stage runs on the token produced by the first stage,
and its successful text is returned unmodified. -/
theorem C2_pipeline_order (tok : Variables → Except Error AccessTokenResponse)
    (m3u m3u2 : String → PlaybackAccessToken → Except Error String) (var : Variables) :
    (∀ e, tok var = Except.error e →
      process tok m3u var = Except.error ⟨e, "GQL"⟩ ∧
      process tok m3u var = process tok m3u2 var) ∧
    (∀ resp s, tok var = Except.ok resp →
      m3u var.get_url resp.data.playback_access_token = Except.ok s →
      process tok m3u var = Except.ok ⟨s⟩) := by
  constructor
  · intro e he
    constructor <;> simp [process, into_responder, he]
  · intro resp s hr hs
    simp [process, into_responder, hr, hs]

/-- C2 witness: with a failing token stage the result is independent of the
playlist stage, and with both stages succeeding the playlist text comes back
verbatim. -/
theorem C2_pipeline_order_witness :
    process (fun _ => Except.error (Error.Serde "boom")) (fun _ _ => Except.ok "A")
      (Variables.Channel "c") =
      process (fun _ => Except.error (Error.Serde "boom")) (fun _ _ => Except.ok "B")
        (Variables.Channel "c") ∧
    process (fun _ => Except.ok tokResp) (fun _ _ => Except.ok "#EXTM3U")
      (Variables.VOD "123456789") = Except.ok ⟨"#EXTM3U"⟩ :=
  ⟨((C2_pipeline_order (fun _ => Except.error (Error.Serde "boom"))
      (fun _ _ => Except.ok "A") (fun _ _ => Except.ok "B")
      (Variables.Channel "c")).1 (Error.Serde "boom") rfl).2,
   (C2_pipeline_order (fun _ => Except.ok tokResp) (fun _ _ => Except.ok "#EXTM3U")
      (fun _ _ => Except.ok "#EXTM3U") (Variables.VOD "123456789")).2
     tokResp "#EXTM3U" rfl rfl⟩

/-- C3: the playlist query consists of exactly twelve parameters, including
the token value, its signature, the allow-source flag, the lower-cased
session identifier, and a parameter p that is the decimal form of an integer
in the inclusive range from 0 to 9999999; the remaining parameters are the
fixed constants. -/
theorem C3_m3u8_query (t : PlaybackAccessToken) (r : Nat) (rawId : String) :
    (get_m3u8_query t r rawId).length = 12 ∧
    ("token", t.value) ∈ get_m3u8_query t r rawId ∧
    ("sig", t.signature) ∈ get_m3u8_query t r rawId ∧
    ("allow_source", "true") ∈ get_m3u8_query t r rawId ∧
    ("play_session_id", to_lowercase rawId) ∈ get_m3u8_query t r rawId ∧
    (∃ n : Nat, n ≤ 9999999 ∧ ("p", toString n) ∈ get_m3u8_query t r rawId) ∧
    ("player_backend", "mediaplayer") ∈ get_m3u8_query t r rawId ∧
    ("playlist_include_framerate", "true") ∈ get_m3u8_query t r rawId ∧
    ("reassignments_supported", "true") ∈ get_m3u8_query t r rawId ∧
    ("supported_codecs", "vp09,avc1") ∈ get_m3u8_query t r rawId ∧
    ("cdm", "wv") ∈ get_m3u8_query t r rawId ∧
    ("player_version", "1.4.0") ∈ get_m3u8_query t r rawId ∧
    ("fast_bread", "true") ∈ get_m3u8_query t r rawId := by
  refine ⟨rfl, ?_, ?_, ?_, ?_,
    ⟨gen_range_p r, by unfold gen_range_p; omega, ?_⟩, ?_, ?_, ?_, ?_, ?_, ?_, ?_⟩ <;>
    simp [get_m3u8_query, PlaybackAccessToken.gen_query]

/-- C6: the live entry point lower-cases the channel identifier before
building the target, so the targets built from "Foo" and "foo" coincide,
carry the same login in the token request, and yield the same playlist URL
ending in api/channel/hls/foo.m3u8. -/
theorem C6_live_case_normalization (channel : String) :
    process_live_target channel = Variables.Channel (to_lowercase channel) ∧
    process_live_target "Foo" = process_live_target "foo" ∧
    build_token_request (process_live_target "Foo") =
      build_token_request (process_live_target "foo") ∧
    (build_token_request (process_live_target "Foo")).login = "foo" ∧
    (process_live_target "Foo").get_url =
      "https://usher.ttvnw.net/api/channel/hls/foo.m3u8" ∧
    (process_live_target "Foo").get_url = (process_live_target "foo").get_url :=
  ⟨rfl, rfl, rfl, rfl, rfl, rfl⟩

/-- When the nested playback-token field of the response body is absent or
null under both accepted names, serde decoding of `AccessTokenResponse`
fails. -/
theorem deserialize_fails_of_token_null (body : Json)
    (h1 : isNoneOrNull ((body.lookup "data").bind fun d =>
      d.lookup "streamPlaybackAccessToken"))
    (h2 : isNoneOrNull ((body.lookup "data").bind fun d =>
      d.lookup "videoPlaybackAccessToken")) :
    ∃ m, AccessTokenResponse.deserialize body = Except.error m := by
  cases hd : body.lookup "data" with
  | none =>
    exact ⟨"missing field data", by simp [AccessTokenResponse.deserialize, Json.getField, hd]⟩
  | some d =>
    rw [hd] at h1 h2
    have h1' : d.lookup "streamPlaybackAccessToken" = none ∨
        d.lookup "streamPlaybackAccessToken" = some Json.null := h1
    have h2' : d.lookup "videoPlaybackAccessToken" = none ∨
        d.lookup "videoPlaybackAccessToken" = some Json.null := h2
    have hdata : ∃ m, Data.deserialize d = Except.error m := by
      rcases h1' with h1' | h1'
      · rcases h2' with h2' | h2'
        · exact ⟨"missing field streamPlaybackAccessToken",
            by simp only [Data.deserialize, h1', h2']⟩
        · refine ⟨"missing field value", ?_⟩
          simp only [Data.deserialize, h1', h2']
          simp [PlaybackAccessToken.deserialize, Json.getField, Json.lookup,
            Except.map]
      · refine ⟨"missing field value", ?_⟩
        simp only [Data.deserialize, h1']
        simp [PlaybackAccessToken.deserialize, Json.getField, Json.lookup,
          Except.map]
    obtain ⟨m, hm⟩ := hdata
    exact ⟨m, by simp [AccessTokenResponse.deserialize, Json.getField, hd, hm]⟩

/-- C8 counterexample: for the concrete response whose token field is null,
the token stage fails, but the error is built in the `Http` variant (the
transport error variant, carrying the decode kind of the HTTP client), not
in the `Serde` variant that the status mapping treats as the decode error. -/
theorem C8_counterexample :
    get_access_token (Except.ok nullTokenBody) =
      Except.error (Error.Http (reqwest_decode_error "missing field value")) ∧
    (match get_access_token (Except.ok nullTokenBody) with
     | Except.error e => e.is_serde
     | Except.ok _ => true) = false :=
  ⟨rfl, rfl⟩

/-- C8 (amended): a token response whose nested playback-token field is
absent or null makes TokenExchange fail with a JSON-decode failure and no
special not-found handling; the failure is carried in the `Http` variant,
wrapping the decode-kind error of the HTTP client (no timeout, no status),
and is never the `Serde` variant. -/
theorem C8_token_null_decode (body : Json)
    (h1 : isNoneOrNull ((body.lookup "data").bind fun d =>
      d.lookup "streamPlaybackAccessToken"))
    (h2 : isNoneOrNull ((body.lookup "data").bind fun d =>
      d.lookup "videoPlaybackAccessToken")) :
    (∃ m, get_access_token (Except.ok body) =
      Except.error (Error.Http (reqwest_decode_error m))) ∧
    ∀ m, get_access_token (Except.ok body) ≠ Except.error (Error.Serde m) := by
  obtain ⟨m, hm⟩ := deserialize_fails_of_token_null body h1 h2
  constructor
  · exact ⟨m, by simp [get_access_token, hm]⟩
  · intro m2 hcon
    rw [show get_access_token (Except.ok body) =
        Except.error (Error.Http (reqwest_decode_error m)) from
      by simp [get_access_token, hm]] at hcon
    exact Error.noConfusion (Except.error.inj hcon)

/-- C8 witness: the amended statement instantiated at the concrete
null-token response. -/
theorem C8_token_null_decode_witness :
    isNoneOrNull ((nullTokenBody.lookup "data").bind fun d =>
      d.lookup "streamPlaybackAccessToken") ∧
    isNoneOrNull ((nullTokenBody.lookup "data").bind fun d =>
      d.lookup "videoPlaybackAccessToken") ∧
    ∃ m, get_access_token (Except.ok nullTokenBody) =
      Except.error (Error.Http (reqwest_decode_error m)) :=
  ⟨Or.inr rfl, Or.inl rfl,
   (C8_token_null_decode nullTokenBody (Or.inr rfl) (Or.inl rfl)).1⟩

/-- C9 witness: a host outside the table is resolved by the system resolver. -/
theorem C9_resolve_overrides_witness :
    ("example.com" : String) ≠ "twitch.map.fastly.net" ∧
    ("example.com" : String) ≠ "usher.ttvnw.net" ∧
    resolve stub_system "example.com" = stub_system "example.com" :=
  ⟨by decide, by decide,
   (C9_resolve_overrides stub_system "example.com").2.2.2 (by decide) (by decide)⟩

end City17
